import Mathlib

/-!
Verification of `etcdctl cluster-health`
(`vendor/github.com/coreos/etcd/etcdctl/command/cluster_health.go`).

The file shallowly embeds the two functions of that file:

* `getLeaderStatus` — scans a list of endpoints, fetches each member's
  `/debug/vars` diagnostics, and returns the first endpoint whose decoded
  `raft.status` self-reports leadership (`Lead == ID`).
* the body of the `for` loop of `handleClusterHealth` — probes the full
  endpoint set, sleeps, re-probes the discovered leader endpoint, compares
  the two `raftStatus` snapshots, prints a report, and either returns,
  exits, or repeats depending on the `forever` flag.

Modelling conventions:
* Go `uint64` fields are `Nat` (the code only compares them, never does
  arithmetic that could overflow).
* A Go `map[string]T` is an association list `List (String × T)`; the list
  order stands for the (arbitrary) map iteration order, and claims that
  depend on iteration order quantify over permutations of that list.
* The HTTP layer is a function `String → httpResult` giving, for each
  endpoint, either a transport error or a response consisting of a status
  code and the result of JSON-decoding the body (`Option vars`, `none`
  standing for a decode failure).
* Side effects of one loop iteration are recorded as a trace of `Event`s
  (prints and sleeps, in order) together with a `Control` outcome:
  `os.Exit code`, normal `return`, or `continue` (next loop iteration).
* Go's `sort.Strings` is modelled by insertion sort with respect to the
  linear order on `String`; any sorting algorithm for a linear order
  produces this same output list, by antisymmetry.
-/

/-- One value of the Go map `raftStatus.Progress`
(`{Match, Next, State}` in the source's anonymous struct). -/
structure progressEntry where
  Match : Nat
  Next : Nat
  State : String
deriving DecidableEq, Repr

/-- The decoded `raft.status` JSON object (source struct `raftStatus`).
`Progress` is an association list standing for the Go map keyed by member id. -/
structure raftStatus where
  ID : String
  Term : Nat
  Vote : String
  Commit : Nat
  Lead : String
  RaftState : String
  Progress : List (String × progressEntry)
deriving DecidableEq, Repr

/-- The decoded `/debug/vars` document (source struct `vars`). -/
structure vars where
  RaftStatus : raftStatus
deriving DecidableEq, Repr

/-- Outcome of `httpclient.Get(ep + "/debug/vars")` followed by JSON decoding:
either a transport error, or a response with its status code and the decode
result of its body (`none` = decode failure). -/
inductive httpResult where
  | err : httpResult
  | resp (statusCode : Nat) (decoded : Option vars) : httpResult
deriving DecidableEq, Repr

/-- Constant `http.StatusOK`. -/
def statusOK : Nat := 200

/-- The fetch part of the per-endpoint body of `getLeaderStatus`: succeeds
with the decoded `vars` only when the transport connects, the status code is
`http.StatusOK`, and the body decodes; every failure yields `none`. -/
def fetchVars (net : String → httpResult) (ep : String) : Option vars :=
  match net ep with
  | .err => none
  | .resp statusCode decoded =>
    if statusCode ≠ statusOK then none
    else decoded

/-- Source `getLeaderStatus tr endpoints`: iterate the endpoints in order;
skip an endpoint on fetch failure or when the snapshot does not self-report
leadership (`Lead ≠ ID`); return the first qualifying endpoint with its
`raftStatus`. `none` stands for the `errors.New("no leader")` return. -/
def getLeaderStatus (net : String → httpResult) : List String → Option (String × raftStatus)
  | [] => none
  | ep :: eps =>
    match fetchVars net ep with
    | none => getLeaderStatus net eps
    | some vs =>
      if vs.RaftStatus.Lead ≠ vs.RaftStatus.ID then getLeaderStatus net eps
      else some (ep, vs.RaftStatus)

/-- The test an endpoint must pass in `getLeaderStatus`: fetch succeeds and
the snapshot self-reports leadership; yields the returned `raftStatus`. -/
def qualifies (net : String → httpResult) (ep : String) : Option raftStatus :=
  match fetchVars net ep with
  | none => none
  | some vs =>
    if vs.RaftStatus.Lead ≠ vs.RaftStatus.ID then none
    else some vs.RaftStatus

/-- Go map lookup `ps[id]` on the association list standing for the map. -/
def lookupProgress (ps : List (String × progressEntry)) (id : String) : Option progressEntry :=
  (ps.find? (fun p => p.1 == id)).map (fun p => p.2)

/-- Output of `fmt.Println("cluster may be unhealthy: failed to connect", cl)`:
`%v` renders a Go string slice as `[a b c]`. -/
def connectFailLine (cl : List String) : String :=
  "cluster may be unhealthy: failed to connect [" ++ (String.intercalate " " cl ++ "]\n")

/-- The overall-verdict line of `handleClusterHealth`: healthy when
`rs1.Commit > rs0.Commit`, otherwise unhealthy, showing the stalled
`rs0.Commit`. -/
def overallLine (rs0 rs1 : raftStatus) : String :=
  if rs1.Commit > rs0.Commit then
    "cluster is healthy: raft is making progress [commit index: " ++
      (toString rs0.Commit ++ ("->" ++ (toString rs1.Commit ++ "]\n")))
  else
    "cluster is unhealthy: raft is not making progress [commit index: " ++
      (toString rs0.Commit ++ "]\n")

/-- Output of `fmt.Printf("leader is %v\n", rs0.Lead)`. -/
def leaderLine (rs0 : raftStatus) : String :=
  "leader is " ++ (rs0.Lead ++ "\n")

/-- Output of the `fmt.Println` call announcing a configuration change. -/
def configChangeLine : String :=
  "Cluster configuration changed during health checking. Please retry.\n"

/-- The per-member line appended to `prints`: unhealthy when
`pr1.Match <= pr0.Match`, healthy otherwise. -/
def memberLine (id : String) (pr0 pr1 : progressEntry) : String :=
  if pr1.Match ≤ pr0.Match then
    ("member " ++ id) ++ (" is unhealthy: raft is not making progress [match: " ++
      (toString pr0.Match ++ ("->" ++ (toString pr1.Match ++ "]\n"))))
  else
    ("member " ++ id) ++ (" is healthy: raft is making progress [match: " ++
      (toString pr0.Match ++ ("->" ++ (toString pr1.Match ++ "]\n"))))

/-- The `for id, pr0 := range rs0.Progress` loop of `handleClusterHealth`,
iterating the entries of `S0.Progress` in the order of the argument list
(standing for Go's arbitrary map iteration order): looks each id up in
`p1 = rs1.Progress`; the first id missing from `p1` aborts the whole loop
(`none`, the configuration-change exit, discarding lines gathered so far);
otherwise yields the member lines gathered in iteration order. -/
def collectPrints (p1 : List (String × progressEntry)) :
    List (String × progressEntry) → Option (List String)
  | [] => some []
  | (id, pr0) :: rest =>
    match lookupProgress p1 id with
    | none => none
    | some pr1 =>
      match collectPrints p1 rest with
      | none => none
      | some ls => some (memberLine id pr0 pr1 :: ls)

/-- The line `collectPrints` gathers for one `S0.Progress` entry: the
rendered member line when the id is still tracked in `p1`, `none` otherwise. -/
def lineOf (p1 : List (String × progressEntry)) (e : String × progressEntry) : Option String :=
  (lookupProgress p1 e.1).map (fun pr1 => memberLine e.1 e.2 pr1)

/-- Model of `sort.Strings(prints)`: insertion sort for the linear order
on `String`; by antisymmetry every sorting algorithm returns this list. -/
def sortStrings (l : List String) : List String :=
  l.insertionSort (· ≤ ·)

/-- One observable side effect of a loop iteration, in order: a string
written to standard output, or a `time.Sleep` of the given number of
seconds. -/
inductive Event where
  | print (s : String) : Event
  | sleep (seconds : Nat) : Event
deriving DecidableEq, Repr

/-- How a loop iteration ends: `os.Exit code`, a normal `return` (the
process then terminates with status 0), or `continue` (next iteration). -/
inductive Control where
  | exit (code : Nat) : Control
  | ret : Control
  | cont : Control
deriving DecidableEq, Repr

/-- The body of the `for` loop of `handleClusterHealth`, as a trace of
events plus a control outcome. `forever` is the `--forever` flag; `netA` is
the network at the time of the initial probe over the full endpoint list
`cl`, `netB` the network at the time of the follow-up probe one second
later (restricted to the endpoint the initial probe discovered). -/
def loopIter (forever : Bool) (netA netB : String → httpResult) (cl : List String) :
    List Event × Control :=
  match getLeaderStatus netA cl with
  | none =>
    if forever then ([.print (connectFailLine cl), .sleep 10], .cont)
    else ([.print (connectFailLine cl)], .exit 1)
  | some (ep, rs0) =>
    match getLeaderStatus netB [ep] with
    | none =>
      if forever then ([.sleep 1, .print "cluster is unhealthy\n", .sleep 10], .cont)
      else ([.sleep 1, .print "cluster is unhealthy\n"], .exit 1)
    | some (_, rs1) =>
      match collectPrints rs1.Progress rs0.Progress with
      | none =>
        ([.sleep 1, .print (overallLine rs0 rs1), .print (leaderLine rs0),
          .print configChangeLine], .exit 1)
      | some prints =>
        if forever then
          ([.sleep 1, .print (overallLine rs0 rs1), .print (leaderLine rs0)] ++
            ((sortStrings prints).map Event.print ++ [.sleep 10]), .cont)
        else
          ([.sleep 1, .print (overallLine rs0 rs1), .print (leaderLine rs0)] ++
            (sortStrings prints).map Event.print, .ret)

/-- A concrete self-leader `raftStatus` used by witnesses. -/
def sampleStatus (commit : Nat) (prog : List (String × progressEntry)) : raftStatus :=
  { ID := "A", Term := 2, Vote := "A", Commit := commit, Lead := "A",
    RaftState := "StateLeader", Progress := prog }

/-- Witness snapshot at T0 for the stalled-commit run: commit 5, member A
at match 5. -/
def stallStatus0 : raftStatus := sampleStatus 5 [("A", ⟨5, 6, "StateReplicate"⟩)]

/-- Witness snapshot at T1 for the stalled-commit run: commit still 5,
member A advanced to match 6. -/
def stallStatus1 : raftStatus := sampleStatus 5 [("A", ⟨6, 7, "StateReplicate"⟩)]

/-- Network at T0 for the stalled-commit run: every endpoint answers 200
with `stallStatus0`. -/
def stallNetA : String → httpResult := fun _ => .resp statusOK (some ⟨stallStatus0⟩)

/-- Network at T1 for the stalled-commit run. -/
def stallNetB : String → httpResult := fun _ => .resp statusOK (some ⟨stallStatus1⟩)

/-- Witness snapshot at T0 for the configuration-change run: members A, B. -/
def ccStatus0 : raftStatus :=
  sampleStatus 5 [("A", ⟨5, 6, "StateReplicate"⟩), ("B", ⟨4, 5, "StateProbe"⟩)]

/-- Witness snapshot at T1 for the configuration-change run: member B gone. -/
def ccStatus1 : raftStatus := sampleStatus 9 [("A", ⟨6, 7, "StateReplicate"⟩)]

/-- Network at T0 for the configuration-change run. -/
def ccNetA : String → httpResult := fun _ => .resp statusOK (some ⟨ccStatus0⟩)

/-- Network at T1 for the configuration-change run. -/
def ccNetB : String → httpResult := fun _ => .resp statusOK (some ⟨ccStatus1⟩)

/-- A network in which every endpoint suffers a transport error. -/
def downNet : String → httpResult := fun _ => .err

theorem getLeaderStatus_nil (net : String → httpResult) :
    getLeaderStatus net [] = none := rfl

theorem getLeaderStatus_cons (net : String → httpResult) (ep : String) (eps : List String) :
    getLeaderStatus net (ep :: eps) =
      match qualifies net ep with
      | none => getLeaderStatus net eps
      | some rs => some (ep, rs) := by
  cases h : fetchVars net ep with
  | none => simp [getLeaderStatus, qualifies, h]
  | some vs =>
    by_cases hl : vs.RaftStatus.Lead ≠ vs.RaftStatus.ID <;>
      simp [getLeaderStatus, qualifies, h, hl]

/-- Two appends differ when the left parts differ at character index `i`
(both left parts being at least `i + 1` characters long). -/
theorem ne_append_of_data_get (p q r s : String) (i : Nat) (a b : Char)
    (ha : p.data[i]? = some a) (hb : q.data[i]? = some b) (hab : a ≠ b) :
    p ++ r ≠ q ++ s := by
  intro h
  have hd : p.data ++ r.data = q.data ++ s.data := by
    simpa [String.data_append] using congrArg String.data h
  have hlp : i < p.data.length := (List.getElem?_eq_some.mp ha).1
  have hlq : i < q.data.length := (List.getElem?_eq_some.mp hb).1
  have hget : (p.data ++ r.data)[i]? = (q.data ++ s.data)[i]? := by rw [hd]
  rw [List.getElem?_append_left hlp, List.getElem?_append_left hlq, ha, hb] at hget
  exact hab (Option.some.inj hget)

/-- Appending to a common left part is injective. -/
theorem ne_append_left (p : String) {r s : String} (h : r ≠ s) : p ++ r ≠ p ++ s := by
  intro he
  apply h
  have hd : p.data ++ r.data = p.data ++ s.data := by
    simpa [String.data_append] using congrArg String.data he
  exact String.ext (List.append_cancel_left hd)

/-- The healthy overall line is never equal to the unhealthy overall line
(they differ at character index 11, `h` versus `u`). -/
theorem healthyOverall_ne_unhealthyOverall (a b c : Nat) :
    "cluster is healthy: raft is making progress [commit index: " ++
      (toString a ++ ("->" ++ (toString b ++ "]\n"))) ≠
    "cluster is unhealthy: raft is not making progress [commit index: " ++
      (toString c ++ "]\n") :=
  ne_append_of_data_get _ _ _ _ 11 'h' 'u' (by decide) (by decide) (by decide)

/-- For a fixed member id, the unhealthy member line differs from the
healthy one (after the common part they differ at index 4, `u` versus `h`). -/
theorem memberUnhealthy_ne_memberHealthy (id : String) (a b c d : Nat) :
    ("member " ++ id) ++ (" is unhealthy: raft is not making progress [match: " ++
      (toString a ++ ("->" ++ (toString b ++ "]\n")))) ≠
    ("member " ++ id) ++ (" is healthy: raft is making progress [match: " ++
      (toString c ++ ("->" ++ (toString d ++ "]\n")))) :=
  ne_append_left _ (ne_append_of_data_get _ _ _ _ 4 'u' 'h' (by decide) (by decide) (by decide))

/-- C3: for every pair of leader snapshots the overall verdict is healthy
iff `S1.commitIndex > S0.commitIndex`; when `S1.commitIndex ≤ S0.commitIndex`
the verdict line is the unhealthy one, reporting the stalled commit index
`S0.commitIndex`. -/
theorem overall_verdict_iff_commit_progress (rs0 rs1 : raftStatus) :
    (overallLine rs0 rs1 =
      "cluster is healthy: raft is making progress [commit index: " ++
        (toString rs0.Commit ++ ("->" ++ (toString rs1.Commit ++ "]\n"))) ↔
      rs1.Commit > rs0.Commit) ∧
    (rs1.Commit ≤ rs0.Commit →
      overallLine rs0 rs1 =
        "cluster is unhealthy: raft is not making progress [commit index: " ++
          (toString rs0.Commit ++ "]\n")) := by
  by_cases h : rs1.Commit > rs0.Commit
  · refine ⟨⟨fun _ => h, fun _ => by simp [overallLine, h]⟩, fun hle => absurd h (by omega)⟩
  · have hline : overallLine rs0 rs1 =
        "cluster is unhealthy: raft is not making progress [commit index: " ++
          (toString rs0.Commit ++ "]\n") := by simp [overallLine, h]
    refine ⟨⟨fun he => ?_, fun hgt => absurd hgt h⟩, fun _ => hline⟩
    exact absurd (hline ▸ he).symm (healthyOverall_ne_unhealthyOverall _ _ _)

/-- Witness for C3: concrete snapshots with commit index 5 → 7 give the
healthy overall line. -/
theorem overall_verdict_iff_commit_progress_witness :
    overallLine (sampleStatus 5 []) (sampleStatus 7 []) =
      "cluster is healthy: raft is making progress [commit index: " ++
        (toString (sampleStatus 5 []).Commit ++
          ("->" ++ (toString (sampleStatus 7 []).Commit ++ "]\n"))) :=
  (overall_verdict_iff_commit_progress (sampleStatus 5 []) (sampleStatus 7 [])).1.mpr
    (by decide)

/-- C4: for a member present in both snapshots, the per-member verdict line
is the healthy one iff `S1.match > S0.match`; when `S1.match ≤ S0.match` it
is the unhealthy one. -/
theorem member_verdict_iff_match_progress (id : String) (pr0 pr1 : progressEntry) :
    (memberLine id pr0 pr1 =
      ("member " ++ id) ++ (" is healthy: raft is making progress [match: " ++
        (toString pr0.Match ++ ("->" ++ (toString pr1.Match ++ "]\n")))) ↔
      pr1.Match > pr0.Match) ∧
    (pr1.Match ≤ pr0.Match →
      memberLine id pr0 pr1 =
        ("member " ++ id) ++ (" is unhealthy: raft is not making progress [match: " ++
          (toString pr0.Match ++ ("->" ++ (toString pr1.Match ++ "]\n"))))) := by
  by_cases h : pr1.Match ≤ pr0.Match
  · have hline : memberLine id pr0 pr1 =
        ("member " ++ id) ++ (" is unhealthy: raft is not making progress [match: " ++
          (toString pr0.Match ++ ("->" ++ (toString pr1.Match ++ "]\n")))) := by
      simp [memberLine, h]
    refine ⟨⟨fun he => ?_, fun hgt => absurd hgt (by omega)⟩, fun _ => hline⟩
    exact absurd (hline ▸ he) (memberUnhealthy_ne_memberHealthy id _ _ _ _)
  · refine ⟨⟨fun _ => by omega, fun _ => by simp [memberLine, h]⟩,
      fun hle => absurd hle h⟩

/-- Witness for C4: a member whose match index moved 95 → 100 gets the
healthy line. -/
theorem member_verdict_iff_match_progress_witness :
    memberLine "B" ⟨95, 96, "StateReplicate"⟩ ⟨100, 101, "StateReplicate"⟩ =
      ("member " ++ "B") ++ (" is healthy: raft is making progress [match: " ++
        (toString (95:Nat) ++ ("->" ++ (toString (100:Nat) ++ "]\n")))) :=
  (member_verdict_iff_match_progress "B" ⟨95, 96, "StateReplicate"⟩
    ⟨100, 101, "StateReplicate"⟩).1.mpr (by decide)

/-- A qualifying endpoint's snapshot always self-reports leadership. -/
theorem qualifies_self_leader {net : String → httpResult} {ep : String} {rs : raftStatus}
    (h : qualifies net ep = some rs) : rs.Lead = rs.ID := by
  unfold qualifies at h
  cases hf : fetchVars net ep with
  | none => rw [hf] at h; cases h
  | some vs =>
    rw [hf] at h
    by_cases hl : vs.RaftStatus.Lead = vs.RaftStatus.ID
    · simp [hl] at h
      rw [← h]
      exact hl
    · simp [hl] at h

/-- An endpoint fails to qualify exactly when its fetch fails (transport
error, bad status, decode failure) or its snapshot does not self-report
leadership. -/
theorem qualifies_eq_none_iff {net : String → httpResult} {ep : String} :
    qualifies net ep = none ↔
      fetchVars net ep = none ∨
        ∃ vs, fetchVars net ep = some vs ∧ vs.RaftStatus.Lead ≠ vs.RaftStatus.ID := by
  unfold qualifies
  cases hf : fetchVars net ep with
  | none => simp
  | some vs =>
    by_cases hl : vs.RaftStatus.Lead ≠ vs.RaftStatus.ID
    · simp [hl]
    · simp [hl]

/-- A run of non-qualifying endpoints in front is skipped. -/
theorem getLeaderStatus_append_skip (net : String → httpResult) (pre eps : List String)
    (hpre : ∀ e ∈ pre, qualifies net e = none) :
    getLeaderStatus net (pre ++ eps) = getLeaderStatus net eps := by
  induction pre with
  | nil => rfl
  | cons e pre ih =>
    rw [List.cons_append, getLeaderStatus_cons, hpre e (by simp)]
    exact ih (fun x hx => hpre x (by simp [hx]))

/-- Forward characterization of a successful scan: the returned endpoint
splits the list with only non-qualifying endpoints before it. -/
theorem getLeaderStatus_some_spec (net : String → httpResult) (eps : List String) :
    ∀ {ep : String} {rs : raftStatus},
      getLeaderStatus net eps = some (ep, rs) →
      ∃ pre suf, eps = pre ++ ep :: suf ∧ (∀ e ∈ pre, qualifies net e = none) ∧
        qualifies net ep = some rs := by
  induction eps with
  | nil => intro ep rs h; cases h
  | cons e eps ih =>
    intro ep rs h
    rw [getLeaderStatus_cons] at h
    cases hq : qualifies net e with
    | none =>
      rw [hq] at h
      obtain ⟨pre, suf, heq, hpre, hep⟩ := ih h
      refine ⟨e :: pre, suf, by rw [heq, List.cons_append], ?_, hep⟩
      intro x hx
      rcases List.mem_cons.mp hx with hxe | hx'
      · rw [hxe]; exact hq
      · exact hpre x hx'
    | some rs' =>
      rw [hq] at h
      have h' := Option.some.inj h
      have he : e = ep := congrArg Prod.fst h'
      have hr : rs' = rs := congrArg Prod.snd h'
      refine ⟨[], eps, by rw [he, List.nil_append], by simp, ?_⟩
      rw [← he, hq, hr]

/-- C5: the Leader Locator returns `some (ep, rs)` exactly when `ep` is the
first endpoint in input order whose fetch succeeds and whose snapshot
self-reports leadership — every earlier endpoint either fails to fetch or
does not self-report leadership — and `rs` is the snapshot fetched at `ep`;
in particular a returned snapshot always satisfies `Lead = ID`. -/
theorem leader_locator_first_self_leader (net : String → httpResult) (eps : List String)
    (ep : String) (rs : raftStatus) :
    (getLeaderStatus net eps = some (ep, rs) ↔
      ∃ pre suf, eps = pre ++ ep :: suf ∧
        (∀ e ∈ pre, fetchVars net e = none ∨
          ∃ vs, fetchVars net e = some vs ∧ vs.RaftStatus.Lead ≠ vs.RaftStatus.ID) ∧
        qualifies net ep = some rs) ∧
    (getLeaderStatus net eps = some (ep, rs) → rs.Lead = rs.ID) := by
  constructor
  · constructor
    · intro h
      obtain ⟨pre, suf, heq, hpre, hep⟩ := getLeaderStatus_some_spec net eps h
      exact ⟨pre, suf, heq, fun e he => qualifies_eq_none_iff.mp (hpre e he), hep⟩
    · rintro ⟨pre, suf, rfl, hpre, hep⟩
      rw [getLeaderStatus_append_skip net pre _
        (fun e he => qualifies_eq_none_iff.mpr (hpre e he))]
      rw [getLeaderStatus_cons, hep]
  · intro h
    obtain ⟨_, _, _, _, hep⟩ := getLeaderStatus_some_spec net eps h
    exact qualifies_self_leader hep

/-- Witness for C5: endpoints at positions 1 and 2 both self-report
leadership; the locator returns position 1's endpoint and snapshot. -/
theorem leader_locator_first_self_leader_witness :
    getLeaderStatus stallNetA ["http://a", "http://b"] = some ("http://a", stallStatus0) :=
  (leader_locator_first_self_leader stallNetA ["http://a", "http://b"]
    "http://a" stallStatus0).1.mpr ⟨[], ["http://b"], rfl, by simp, by decide⟩

/-- C6: the Leader Locator fails with the no-leader condition — returning
no endpoint and no snapshot — exactly when every endpoint in the set either
fails to fetch (transport error, non-success status, decode failure) or
returns a snapshot that does not self-report leadership. -/
theorem leader_locator_no_leader_iff (net : String → httpResult) (eps : List String) :
    getLeaderStatus net eps = none ↔
      ∀ e ∈ eps, fetchVars net e = none ∨
        ∃ vs, fetchVars net e = some vs ∧ vs.RaftStatus.Lead ≠ vs.RaftStatus.ID := by
  induction eps with
  | nil => simp [getLeaderStatus]
  | cons e eps ih =>
    rw [getLeaderStatus_cons]
    cases hq : qualifies net e with
    | none =>
      simp only []
      rw [ih]
      constructor
      · intro h x hx
        rcases List.mem_cons.mp hx with hxe | hx'
        · rw [hxe]; exact qualifies_eq_none_iff.mp hq
        · exact h x hx'
      · intro h x hx
        exact h x (by simp [hx])
    | some rs =>
      simp only []
      constructor
      · intro h; cases h
      · intro h
        have hn := qualifies_eq_none_iff.mpr (h e (by simp))
        rw [hq] at hn; cases hn

/-- C7: the per-endpoint fetch succeeds exactly when the transport
connects, the status code is 200 (`http.StatusOK`), and the body decodes;
a transport error, a non-200 status, and a decode failure each yield
`none`; and a failed endpoint is merely skipped by the scan — the result
over `ep :: eps` equals the result over `eps`, with no retry and no error
escalated for that endpoint alone. -/
theorem fetcher_failure_skipped (net : String → httpResult) (ep : String) (eps : List String) :
    (∀ vs, fetchVars net ep = some vs ↔ net ep = .resp statusOK (some vs)) ∧
    (net ep = .err → fetchVars net ep = none) ∧
    (∀ code dec, net ep = .resp code dec → code ≠ statusOK → fetchVars net ep = none) ∧
    (net ep = .resp statusOK none → fetchVars net ep = none) ∧
    (fetchVars net ep = none → getLeaderStatus net (ep :: eps) = getLeaderStatus net eps) := by
  refine ⟨?_, ?_, ?_, ?_, ?_⟩
  · intro vs
    unfold fetchVars
    cases hn : net ep with
    | err => simp
    | resp code dec =>
      by_cases hc : code = statusOK
      · simp [hc]
      · simp [hc]
  · intro h
    simp [fetchVars, h]
  · intro code dec h hc
    simp [fetchVars, h, hc]
  · intro h
    simp [fetchVars, h]
  · intro h
    simp [getLeaderStatus, h]

/-- Witness for C7: a transport error at position 1 is skipped; scanning
both endpoints equals scanning only the second. -/
theorem fetcher_failure_skipped_witness :
    getLeaderStatus downNet ["http://a", "http://b"] = getLeaderStatus downNet ["http://b"] :=
  (fetcher_failure_skipped downNet "http://a" ["http://b"]).2.2.2.2 (by decide)

theorem collectPrints_cons_none (p1 : List (String × progressEntry)) (id : String)
    (pr0 : progressEntry) (rest : List (String × progressEntry))
    (hl : lookupProgress p1 id = none) :
    collectPrints p1 ((id, pr0) :: rest) = none := by
  simp [collectPrints, hl]

theorem collectPrints_cons_some (p1 : List (String × progressEntry)) (id : String)
    (pr0 : progressEntry) (rest : List (String × progressEntry)) (pr1 : progressEntry)
    (hl : lookupProgress p1 id = some pr1) :
    collectPrints p1 ((id, pr0) :: rest) =
      match collectPrints p1 rest with
      | none => none
      | some ls => some (memberLine id pr0 pr1 :: ls) := by
  simp [collectPrints, hl]

/-- The member loop aborts (configuration change) exactly when some entry
of `S0.Progress` has an id missing from `p1 = S1.Progress`. -/
theorem collectPrints_eq_none_iff (p1 : List (String × progressEntry))
    (l : List (String × progressEntry)) :
    collectPrints p1 l = none ↔ ∃ e ∈ l, lookupProgress p1 e.1 = none := by
  induction l with
  | nil => simp [collectPrints]
  | cons hd rest ih =>
    obtain ⟨id, pr0⟩ := hd
    cases hl : lookupProgress p1 id with
    | none =>
      rw [collectPrints_cons_none p1 id pr0 rest hl]
      exact ⟨fun _ => ⟨(id, pr0), by simp, hl⟩, fun _ => rfl⟩
    | some pr1 =>
      rw [collectPrints_cons_some p1 id pr0 rest pr1 hl]
      cases hc : collectPrints p1 rest with
      | none =>
        obtain ⟨e, he, hle⟩ := ih.mp hc
        exact ⟨fun _ => ⟨e, by simp [he], hle⟩, fun _ => rfl⟩
      | some ls =>
        constructor
        · intro h; cases h
        · rintro ⟨e, he, hle⟩
          rcases List.mem_cons.mp he with hee | hr
          · rw [hee] at hle
            exact absurd hle (by simp [hl])
          · exact absurd (ih.mpr ⟨e, hr, hle⟩) (by simp [hc])

/-- A successful member loop yields exactly one line per `S0.Progress`
entry, each rendered by `lineOf`, in iteration order. -/
theorem collectPrints_some_spec (p1 : List (String × progressEntry))
    (l : List (String × progressEntry)) :
    ∀ ls : List String, collectPrints p1 l = some ls →
      ls = l.filterMap (lineOf p1) ∧ ls.length = l.length := by
  induction l with
  | nil =>
    intro ls h
    simp [collectPrints] at h
    simp [← h]
  | cons hd rest ih =>
    obtain ⟨id, pr0⟩ := hd
    intro ls h
    cases hl : lookupProgress p1 id with
    | none => rw [collectPrints_cons_none p1 id pr0 rest hl] at h; cases h
    | some pr1 =>
      rw [collectPrints_cons_some p1 id pr0 rest pr1 hl] at h
      cases hc : collectPrints p1 rest with
      | none => rw [hc] at h; cases h
      | some ls0 =>
        rw [hc] at h
        have h' : memberLine id pr0 pr1 :: ls0 = ls := Option.some.inj h
        obtain ⟨hf, hlen⟩ := ih ls0 hc
        constructor
        · rw [← h']
          simp [List.filterMap_cons, lineOf, hl, ← hf]
        · rw [← h']
          simp [hlen]

/-- Looking a key up after prepending an entry with a different key is
unchanged. -/
theorem lookupProgress_cons_ne (p1 : List (String × progressEntry)) (id x : String)
    (pr : progressEntry) (h : x ≠ id) :
    lookupProgress ((id, pr) :: p1) x = lookupProgress p1 x := by
  have hb : (id == x) = false := by
    rw [beq_eq_false_iff_ne]
    exact fun he => h he.symm
  simp [lookupProgress, List.find?_cons, hb]

/-- Prepending an entry to `S1.Progress` whose key occurs nowhere in the
iterated list leaves the member loop's result unchanged. -/
theorem collectPrints_cons_fresh (p1 : List (String × progressEntry))
    (id : String) (pr : progressEntry) :
    ∀ l : List (String × progressEntry), id ∉ l.map Prod.fst →
      collectPrints ((id, pr) :: p1) l = collectPrints p1 l := by
  intro l
  induction l with
  | nil => intro _; rfl
  | cons hd rest ih =>
    obtain ⟨x, pr0⟩ := hd
    intro hid
    have hx : x ≠ id := by
      intro he; exact hid (by simp [he])
    have hrest : id ∉ rest.map Prod.fst := by
      intro hr; exact hid (by simp [hr])
    cases hl : lookupProgress p1 x with
    | none =>
      rw [collectPrints_cons_none _ _ _ _
          (by rw [lookupProgress_cons_ne p1 id x pr hx]; exact hl),
        collectPrints_cons_none _ _ _ _ hl]
    | some pr1 =>
      rw [collectPrints_cons_some _ _ _ _ _
          (by rw [lookupProgress_cons_ne p1 id x pr hx]; exact hl),
        collectPrints_cons_some _ _ _ _ _ hl, ih hrest]

/-- Sorting is invariant under permutation of the input (antisymmetry of
the order on strings). -/
theorem sortStrings_eq_of_perm {l l' : List String} (h : l.Perm l') :
    sortStrings l = sortStrings l' :=
  @List.eq_of_perm_of_sorted String (· ≤ ·) inferInstance (sortStrings l) (sortStrings l')
    ((List.perm_insertionSort _ l).trans (h.trans (List.perm_insertionSort _ l').symm))
    (List.sorted_insertionSort _ l) (List.sorted_insertionSort _ l')

/-- C2 counterexample: a run in which member B disappears between the two
snapshots (a configuration change) does exit with status 1, but parts of
the report — the overall-verdict line and the leader line — have already
been emitted, so "produces no partial report" is false. -/
theorem config_change_partial_report_cex :
    collectPrints ccStatus1.Progress ccStatus0.Progress = none ∧
    (loopIter false ccNetA ccNetB ["http://a"]).2 = Control.exit 1 ∧
    Event.print (overallLine ccStatus0 ccStatus1) ∈
      (loopIter false ccNetA ccNetB ["http://a"]).1 ∧
    Event.print (leaderLine ccStatus0) ∈ (loopIter false ccNetA ccNetB ["http://a"]).1 := by
  decide

/-- C2 (amended): when some member of `S0.followerProgress` is missing from
`S1.followerProgress`, the iteration prints the configuration-change
message and exits with status 1 immediately, in one-shot and continuous
mode alike, emitting no per-member verdict line — but the overall-verdict
and leader lines, printed before the check, are part of the output. -/
theorem config_change_exits_both_modes (forever : Bool) (netA netB : String → httpResult)
    (cl : List String) (ep p : String) (rs0 rs1 : raftStatus)
    (hA : getLeaderStatus netA cl = some (ep, rs0))
    (hB : getLeaderStatus netB [ep] = some (p, rs1))
    (hmiss : ∃ e ∈ rs0.Progress, lookupProgress rs1.Progress e.1 = none) :
    loopIter forever netA netB cl =
      ([.sleep 1, .print (overallLine rs0 rs1), .print (leaderLine rs0),
        .print configChangeLine], .exit 1) := by
  have hcc : collectPrints rs1.Progress rs0.Progress = none :=
    (collectPrints_eq_none_iff _ _).mpr hmiss
  simp [loopIter, hA, hB, hcc]

/-- Witness for the amended C2 at the concrete configuration-change run
(in one-shot mode). -/
theorem config_change_exits_both_modes_witness :
    loopIter false ccNetA ccNetB ["http://a"] =
      ([.sleep 1, .print (overallLine ccStatus0 ccStatus1), .print (leaderLine ccStatus0),
        .print configChangeLine], .exit 1) :=
  config_change_exits_both_modes false ccNetA ccNetB ["http://a"] "http://a" "http://a"
    ccStatus0 ccStatus1 (by decide) (by decide) (by decide)

/-- C9: per-member lines are rendered first and then sorted by the rendered
string's lexicographic order: the emitted list is sorted, is a permutation
of the collected lines, and is identical for any two enumeration orders of
`S0.followerProgress`. -/
theorem member_lines_sorted_deterministic (p1 : List (String × progressEntry))
    (l l' : List (String × progressEntry)) (ls ls' : List String)
    (hperm : l.Perm l')
    (h : collectPrints p1 l = some ls) (h' : collectPrints p1 l' = some ls') :
    sortStrings ls = sortStrings ls' ∧
    List.Sorted (· ≤ ·) (sortStrings ls) ∧ (sortStrings ls).Perm ls := by
  obtain ⟨hf, _⟩ := collectPrints_some_spec p1 l ls h
  obtain ⟨hf', _⟩ := collectPrints_some_spec p1 l' ls' h'
  have hp : ls.Perm ls' := by
    rw [hf, hf']
    exact hperm.filterMap (lineOf p1)
  exact ⟨sortStrings_eq_of_perm hp, List.sorted_insertionSort _ ls,
    List.perm_insertionSort _ ls⟩

/-- Witness for C9: the two enumeration orders of a two-member progress map
yield the same sorted line list. -/
theorem member_lines_sorted_deterministic_witness :
    sortStrings [memberLine "A" ⟨5, 6, "StateReplicate"⟩ ⟨6, 7, "StateReplicate"⟩,
        memberLine "B" ⟨4, 5, "StateProbe"⟩ ⟨6, 7, "StateProbe"⟩] =
      sortStrings [memberLine "B" ⟨4, 5, "StateProbe"⟩ ⟨6, 7, "StateProbe"⟩,
        memberLine "A" ⟨5, 6, "StateReplicate"⟩ ⟨6, 7, "StateReplicate"⟩] :=
  (member_lines_sorted_deterministic
    [("A", ⟨6, 7, "StateReplicate"⟩), ("B", ⟨6, 7, "StateProbe"⟩)]
    [("A", ⟨5, 6, "StateReplicate"⟩), ("B", ⟨4, 5, "StateProbe"⟩)]
    [("B", ⟨4, 5, "StateProbe"⟩), ("A", ⟨5, 6, "StateReplicate"⟩)]
    _ _ (by decide) (by decide) (by decide)).1

/-- C10: a member id present in `S1.followerProgress` but absent from
`S0.followerProgress` is silently ignored: prepending such an entry to
`S1.Progress` changes neither the member loop's outcome (no
configuration-change failure) nor the overall-verdict line, it yields no
line of its own, and the collected lines enumerate exactly the entries of
`S0.followerProgress` — one line per entry. -/
theorem extra_s1_member_ignored (rs0 rs1 : raftStatus) (ls : List String)
    (id : String) (pr : progressEntry)
    (h : collectPrints rs1.Progress rs0.Progress = some ls)
    (hid : id ∉ rs0.Progress.map Prod.fst) :
    collectPrints ((id, pr) :: rs1.Progress) rs0.Progress = some ls ∧
    overallLine rs0 { rs1 with Progress := (id, pr) :: rs1.Progress } = overallLine rs0 rs1 ∧
    ls = rs0.Progress.filterMap (lineOf rs1.Progress) ∧
    ls.length = rs0.Progress.length := by
  obtain ⟨hf, hlen⟩ := collectPrints_some_spec _ _ _ h
  refine ⟨?_, rfl, hf, hlen⟩
  rw [collectPrints_cons_fresh rs1.Progress id pr rs0.Progress hid]
  exact h

/-- Witness for C10: adding a fresh member C to the second snapshot's
progress map leaves the collected lines unchanged. -/
theorem extra_s1_member_ignored_witness :
    collectPrints (("C", ⟨1, 2, "StateProbe"⟩) :: stallStatus1.Progress) stallStatus0.Progress =
      some [memberLine "A" ⟨5, 6, "StateReplicate"⟩ ⟨6, 7, "StateReplicate"⟩] :=
  (extra_s1_member_ignored stallStatus0 stallStatus1 _ "C" ⟨1, 2, "StateProbe"⟩
    (by decide) (by decide)).1

/-- C1 counterexample: a one-shot evaluation whose overall verdict is
unhealthy (commit index stalled at 5) ends in a normal `return` — process
exit status 0 — not a non-zero status. -/
theorem oneshot_unhealthy_exits_zero_cex :
    (loopIter false stallNetA stallNetB ["http://a"]).2 = Control.ret ∧
    Event.print "cluster is unhealthy: raft is not making progress [commit index: 5]\n"
      ∈ (loopIter false stallNetA stallNetB ["http://a"]).1 := by
  decide

/-- C1 (amended): in one-shot mode the control outcome is a normal return
(process exit status 0) or `exit 1`, and it is a normal return exactly when
both probes succeed and no configuration change is detected — regardless of
the overall or per-member health verdicts. Hence a healthy one-shot
evaluation exits with status 0, every failed evaluation exits with status
1, but an unhealthy completed evaluation also exits with status 0. -/
theorem oneshot_exit_status (netA netB : String → httpResult) (cl : List String) :
    ((loopIter false netA netB cl).2 = Control.ret ∨
      (loopIter false netA netB cl).2 = Control.exit 1) ∧
    ((loopIter false netA netB cl).2 = Control.ret ↔
      ∃ ep rs0 p rs1 prints,
        getLeaderStatus netA cl = some (ep, rs0) ∧
        getLeaderStatus netB [ep] = some (p, rs1) ∧
        collectPrints rs1.Progress rs0.Progress = some prints) := by
  cases hA : getLeaderStatus netA cl with
  | none =>
    refine ⟨Or.inr (by simp [loopIter, hA]), ?_, ?_⟩
    · intro h
      simp [loopIter, hA] at h
    · rintro ⟨ep, rs0, p, rs1, prints, hA', _, _⟩
      cases hA'
  | some er =>
    obtain ⟨ep, rs0⟩ := er
    cases hB : getLeaderStatus netB [ep] with
    | none =>
      refine ⟨Or.inr (by simp [loopIter, hA, hB]), ?_, ?_⟩
      · intro h
        simp [loopIter, hA, hB] at h
      · rintro ⟨ep', rs0', p', rs1', prints', hA', hB', _⟩
        have h1 := Option.some.inj hA'
        have hep : ep = ep' := congrArg Prod.fst h1
        rw [← hep] at hB'
        rw [hB] at hB'
        cases hB'
    | some pr =>
      obtain ⟨p, rs1⟩ := pr
      cases hcc : collectPrints rs1.Progress rs0.Progress with
      | none =>
        refine ⟨Or.inr (by simp [loopIter, hA, hB, hcc]), ?_, ?_⟩
        · intro h
          simp [loopIter, hA, hB, hcc] at h
        · rintro ⟨ep', rs0', p', rs1', prints', hA', hB', hcc'⟩
          have h1 := Option.some.inj hA'
          have hep : ep = ep' := congrArg Prod.fst h1
          have hrs0 : rs0 = rs0' := congrArg Prod.snd h1
          rw [← hep] at hB'
          rw [hB] at hB'
          have h2 := Option.some.inj hB'
          have hrs1 : rs1 = rs1' := congrArg Prod.snd h2
          rw [← hrs0, ← hrs1] at hcc'
          rw [hcc] at hcc'
          cases hcc'
      | some prints =>
        refine ⟨Or.inl (by simp [loopIter, hA, hB, hcc]), ?_, ?_⟩
        · intro _
          exact ⟨ep, rs0, p, rs1, prints, rfl, hB, hcc⟩
        · intro _
          simp [loopIter, hA, hB, hcc]

/-- C8: a Leader Locator failure at the initial probe makes the loop print
the connect-failure message and, in continuous mode, sleep the fixed
10-unit backoff and continue (restarting from the initial probe over the
full endpoint list), while in one-shot mode it exits with status 1
immediately; a failure at the follow-up probe behaves the same with the
"cluster is unhealthy" message; and the follow-up probe is restricted to
the single endpoint discovered by the initial probe — the iteration's
outcome depends on the follow-up network only through its value at that
endpoint. -/
theorem probe_failure_handling_and_followup_restriction
    (netA netB netB' : String → httpResult) (cl : List String) :
    (getLeaderStatus netA cl = none →
      loopIter true netA netB cl = ([.print (connectFailLine cl), .sleep 10], .cont) ∧
      loopIter false netA netB cl = ([.print (connectFailLine cl)], .exit 1)) ∧
    (∀ ep rs0, getLeaderStatus netA cl = some (ep, rs0) →
      getLeaderStatus netB [ep] = none →
      loopIter true netA netB cl =
        ([.sleep 1, .print "cluster is unhealthy\n", .sleep 10], .cont) ∧
      loopIter false netA netB cl =
        ([.sleep 1, .print "cluster is unhealthy\n"], .exit 1)) ∧
    (∀ forever ep rs0, getLeaderStatus netA cl = some (ep, rs0) →
      netB ep = netB' ep →
      loopIter forever netA netB cl = loopIter forever netA netB' cl) := by
  refine ⟨?_, ?_, ?_⟩
  · intro hA
    exact ⟨by simp [loopIter, hA], by simp [loopIter, hA]⟩
  · intro ep rs0 hA hB
    exact ⟨by simp [loopIter, hA, hB], by simp [loopIter, hA, hB]⟩
  · intro forever ep rs0 hA hnet
    have hg : getLeaderStatus netB [ep] = getLeaderStatus netB' [ep] := by
      simp [getLeaderStatus, fetchVars, hnet]
    simp [loopIter, hA, hg]

/-- Witness for C8: with every endpoint down, the continuous-mode iteration
prints the connect-failure message, sleeps 10 units and continues. -/
theorem probe_failure_handling_witness :
    loopIter true downNet downNet ["http://a"] =
      ([.print (connectFailLine ["http://a"]), .sleep 10], .cont) :=
  ((probe_failure_handling_and_followup_restriction downNet downNet downNet ["http://a"]).1
    (by decide)).1
